import Mathlib

/-!
Verification development for the kor-macro-data temporal normalization and
merge-integrity subsystem.

Shallow embedding of:
  - the BOK date parser (merge_data_complete.parse_bok_date) and the date
    parsing branch of KoreanMacroDataMerger.standardize_columns,
  - KoreanMacroDataMerger.aggregate_time_series (monthly path),
  - KoreanMacroDataMerger.merge_datasets,
  - KoreanMacroDataMerger.add_derived_features (pct-change columns),
  - the forward-fill resampling of merge_data_complete.main,
  - DataIntegrityChecker.check_date_alignment and check_merge_integrity.

Conventions of the embedding:
  - calendar dates are the structure Date (year, month, day);
  - in the Integrity Checker section, all dates in play are month starts
    (the checker converts every series with dt.to_period and dt.to_timestamp),
    so timestamps are represented by an integer month index and the day delta
    recorded by the checker by the difference of indices;
  - pandas missing values (NaN, NaT) are represented with Option;
  - numeric values are rationals; the IEEE infinities that pandas produces on
    division by zero are represented by the dedicated type PctVal.
-/

namespace KorMacro

/-- A calendar date as produced by pandas to_datetime: year, month, day. -/
structure Date where
  year : Nat
  month : Nat
  day : Nat
deriving DecidableEq, Repr

/-- Leap year rule used by the proleptic Gregorian calendar of pandas. -/
def isLeapYear (y : Nat) : Bool :=
  y % 4 = 0 && (y % 100 ≠ 0 || y % 400 = 0)

/-- Number of days of a month, as pandas month-end labels use. -/
def daysInMonth (y m : Nat) : Nat :=
  if m = 2 then (if isLeapYear y then 29 else 28)
  else if m = 4 || m = 6 || m = 9 || m = 11 then 30
  else 31

/-- Month index of a date: counts months since year 0, month 1.
Monthly period arithmetic (pandas to_period with freq M) works on this index. -/
def Date.monthIdx (d : Date) : Nat :=
  d.year * 12 + (d.month - 1)

/-- Month-end date of a month index: the label pandas resample with freq M
puts on a monthly bucket. -/
def monthEndDate (mi : Nat) : Date :=
  ⟨mi / 12, mi % 12 + 1, daysInMonth (mi / 12) (mi % 12 + 1)⟩

/-- Month-start date of the month of a date: dt.to_period(M).dt.to_timestamp()
as used throughout merge_data_complete and the integrity checker. -/
def toMonthStart (d : Date) : Date :=
  ⟨d.year, d.month, 1⟩

/-! ## Date parsing (merge_data_complete.parse_bok_date, lines 12-22) -/

/-- Numeric value of a decimal digit character, none for a non-digit. -/
def digitVal (c : Char) : Option Nat :=
  if c.isDigit then some (c.toNat - 48) else none

/-- Parse a list of characters as an all-digit decimal numeral. -/
def digitsToNat : List Char → Option Nat
  | [] => none
  | cs => cs.foldl (fun acc c => do pure ((← acc) * 10 + (← digitVal c))) (some 0)

/-- strptime with format %Y%m%d on an 8-character token: the first four
characters are the year, the next two the month, the last two the literal day. -/
def parseYYYYMMDD (s : String) : Option Date :=
  if s.toList.length = 8 then
    match digitsToNat (s.toList.take 4), digitsToNat ((s.toList.drop 4).take 2),
        digitsToNat (s.toList.drop 6) with
    | some y, some m, some d =>
      if 1 ≤ m ∧ m ≤ 12 ∧ 1 ≤ d ∧ d ≤ daysInMonth y m then some ⟨y, m, d⟩ else none
    | _, _, _ => none
  else none

/-- strptime with format %Y%m on a 6-character token: year then month,
day fixed to 1 because the format has no day field. -/
def parseYYYYMM (s : String) : Option Date :=
  if s.toList.length = 6 then
    match digitsToNat (s.toList.take 4), digitsToNat (s.toList.drop 4) with
    | some y, some m => if 1 ≤ m ∧ m ≤ 12 then some ⟨y, m, 1⟩ else none
    | _, _ => none
  else none

/-- strptime with format %Y.%m: a four-digit year, a literal dot, then the
month; day fixed to 1 because the format has no day field. -/
def parseDotted (s : String) : Option Date :=
  match s.toList.splitOn '.' with
  | [ys, ms] =>
    if ys.length = 4 ∧ (ms.length = 1 ∨ ms.length = 2) then
      match digitsToNat ys, digitsToNat ms with
      | some y, some m => if 1 ≤ m ∧ m ≤ 12 then some ⟨y, m, 1⟩ else none
      | _, _ => none
    else none
  | _ => none

/-- Generic fallback parsing, pd.to_datetime without an explicit format:
modelled by the ISO shape YYYY-MM-DD, a representative subset of the formats
the pandas generic parser accepts. -/
def parseGeneric (s : String) : Option Date :=
  match s.toList.splitOn '-' with
  | [ys, ms, ds] =>
    if ys.length = 4 ∧ ms.length = 2 ∧ ds.length = 2 then
      match digitsToNat ys, digitsToNat ms, digitsToNat ds with
      | some y, some m, some d =>
        if 1 ≤ m ∧ m ≤ 12 ∧ 1 ≤ d ∧ d ≤ daysInMonth y m then some ⟨y, m, d⟩ else none
      | _, _, _ => none
    else none
  | _ => none

/-- merge_data_complete.parse_bok_date: dotted tokens first, then 8-digit
YYYYMMDD, then 6-digit YYYYMM, then generic fallback with coercion. -/
def parse_bok_date (s : String) : Option Date :=
  if s.toList.contains '.' then parseDotted s
  else if s.length = 8 then parseYYYYMMDD s
  else if s.length = 6 then parseYYYYMM s
  else parseGeneric s

/-- The two-digit number written at positions 6 and 7 of a token: the literal
day field of an 8-digit YYYYMMDD token. -/
def literalDayField (s : String) : Option Nat :=
  digitsToNat (s.toList.drop 6)

/-! ## Column standardization (data_merger.standardize_columns, lines 100-124) -/

/-- The four parsing formats the date branch of standardize_columns can pick. -/
inductive DFormat where
  | dotted
  | ymd8
  | ym6
  | generic
deriving DecidableEq, Repr

/-- The format selection of standardize_columns: inspect one token only.
Mirrors the branch on str(df[col].iloc[0]) at data_merger.py lines 107-117. -/
def chooseFormat (t : String) : DFormat :=
  if t.toList.contains '.' then .dotted
  else if t.length = 8 then .ymd8
  else if t.length = 6 then .ym6
  else .generic

/-- pd.to_datetime of a token under one fixed format with errors=coerce. -/
def parseWithFormat : DFormat → String → Option Date
  | .dotted => parseDotted
  | .ymd8 => parseYYYYMMDD
  | .ym6 => parseYYYYMM
  | .generic => parseGeneric

/-- The date-parsing branch of standardize_columns for an object-dtype date
column: the format is chosen from the first entry alone and then applied by
pd.to_datetime to every entry of the column, failures coerced to NaT. -/
def standardize_columns_date (toks : List String) : List (Option Date) :=
  match toks with
  | [] => []
  | h :: _ => toks.map (parseWithFormat (chooseFormat h))

/-! ## Monthly aggregation (data_merger.aggregate_time_series, lines 169-232) -/

/-- Arithmetic mean of a list of present values; the pandas mean of an empty
group is NaN, here none. -/
def meanOpt (l : List ℚ) : Option ℚ :=
  if l.isEmpty then none else some (l.sum / l.length)

/-- All integers from lo to hi inclusive: the dense run of periods that
pandas resample and date_range produce. -/
def denseRangeN (lo hi : Nat) : List Nat :=
  (List.range (hi + 1 - lo)).map (lo + ·)

/-- aggregate_time_series with freq M: coerce the date column and drop rows
whose date is NaT (lines 190-193), then resample by calendar month labelling
each bucket with its month END (pandas offset alias M, line 213) and aggregate
by mean. Months inside the span with no valid value give NaN. -/
def aggregate_time_series_M (rows : List (Option Date × Option ℚ)) :
    List (Date × Option ℚ) :=
  let valid := rows.filterMap (fun r => r.1.map (fun d => (d, r.2)))
  match valid with
  | [] => []
  | v :: vs =>
    let idxs := (v :: vs).map (fun p => p.1.monthIdx)
    let lo := idxs.foldl Nat.min v.1.monthIdx
    let hi := idxs.foldl Nat.max v.1.monthIdx
    (denseRangeN lo hi).map (fun mi =>
      (monthEndDate mi,
       meanOpt ((v :: vs).filterMap (fun p => if p.1.monthIdx = mi then p.2 else none))))

/-! ## Day-of-month anchoring lemmas for the parsing rules -/

lemma parseDotted_day (s : String) (d : Date) (h : parseDotted s = some d) : d.day = 1 := by
  unfold parseDotted at h
  repeat' split at h
  all_goals first
    | (rw [Option.some_inj] at h; rw [← h])
    | (exact Option.noConfusion h)

lemma parseYYYYMM_day (s : String) (d : Date) (h : parseYYYYMM s = some d) : d.day = 1 := by
  unfold parseYYYYMM at h
  repeat' split at h
  all_goals first
    | (rw [Option.some_inj] at h; rw [← h])
    | (exact Option.noConfusion h)

lemma parseYYYYMMDD_day (s : String) (d : Date) (h : parseYYYYMMDD s = some d) :
    literalDayField s = some d.day := by
  unfold parseYYYYMMDD at h
  unfold literalDayField
  repeat' split at h
  all_goals first
    | (rw [Option.some_inj] at h; rw [← h]; assumption)
    | (exact Option.noConfusion h)

/-! ## Claims C5, C10, C3, C8 -/

/-- C5: every date token successfully parsed by the date normalizer under
rule 5 (dotted YYYY.MM) is anchored to day 1; under rule 2 (8 digits,
YYYYMMDD) its literal day field is preserved exactly as given; under rule 3
(6 digits, YYYYMM) it is anchored to day 1. -/
theorem c5_day_anchoring (s : String) (d : Date) (h : parse_bok_date s = some d) :
    (s.toList.contains '.' = true → d.day = 1) ∧
    (s.toList.contains '.' = false → s.length = 8 → literalDayField s = some d.day) ∧
    (s.toList.contains '.' = false → s.length = 6 → d.day = 1) := by
  unfold parse_bok_date at h
  by_cases hdot : s.toList.contains '.' = true
  · rw [if_pos hdot] at h
    exact ⟨fun _ => parseDotted_day s d h,
           fun hfalse _ => absurd hdot (by rw [hfalse]; exact Bool.false_ne_true),
           fun hfalse _ => absurd hdot (by rw [hfalse]; exact Bool.false_ne_true)⟩
  · rw [if_neg hdot] at h
    by_cases h8 : s.length = 8
    · rw [if_pos h8] at h
      exact ⟨fun htrue => absurd htrue hdot,
             fun _ _ => parseYYYYMMDD_day s d h,
             fun _ h6 => absurd h8 (by rw [h6]; omega)⟩
    · rw [if_neg h8] at h
      by_cases h6 : s.length = 6
      · rw [if_pos h6] at h
        exact ⟨fun htrue => absurd htrue hdot,
               fun _ h8x => absurd h8x h8,
               fun _ _ => parseYYYYMM_day s d h⟩
      · rw [if_neg h6] at h
        exact ⟨fun htrue => absurd htrue hdot,
               fun _ h8x => absurd h8x h8,
               fun _ h6x => absurd h6x h6⟩

/-- Witness for C5: the daily token 20240115 parses with day 15, the literal
day field of the token, and discharges the hypotheses of c5_day_anchoring. -/
theorem c5_day_anchoring_witness :
    parse_bok_date "20240115" = some ⟨2024, 1, 15⟩ ∧
    (("20240115" : String).toList.contains '.' = false → ("20240115" : String).length = 8 →
      literalDayField "20240115" = some (Date.mk 2024 1 15).day) :=
  ⟨by decide, (c5_day_anchoring "20240115" ⟨2024, 1, 15⟩ (by decide)).2.1⟩

/-- C10: standardize_columns chooses the date format by inspecting only the
first entry of the column and parses every entry with that single format, so
an entry encoded differently from the first one is coerced to NaT even when
the full rule set of the date normalizer would parse it: concretely, with a
dotted first token, the daily token 20240115 becomes none although
parse_bok_date parses it. -/
theorem c10_single_format_from_first_row (toks : List String) (h : String)
    (t : List String) (heq : toks = h :: t) :
    standardize_columns_date toks = toks.map (parseWithFormat (chooseFormat h)) ∧
    standardize_columns_date ["2024.01", "20240115"] = [some ⟨2024, 1, 1⟩, none] ∧
    parse_bok_date "20240115" = some ⟨2024, 1, 15⟩ :=
  ⟨by rw [heq]; rfl, by decide, by decide⟩

/-- Witness for C10 at the concrete two-token column. -/
theorem c10_single_format_from_first_row_witness :
    standardize_columns_date ["2024.01", "20240115"]
      = ["2024.01", "20240115"].map (parseWithFormat (chooseFormat "2024.01")) ∧
    standardize_columns_date ["2024.01", "20240115"] = [some ⟨2024, 1, 1⟩, none] ∧
    parse_bok_date "20240115" = some ⟨2024, 1, 15⟩ :=
  c10_single_format_from_first_row ["2024.01", "20240115"] "2024.01" ["20240115"] rfl

/-- C3 (code bug): aggregate_time_series with freq M labels monthly buckets
with the month END (pandas offset alias M), not the month start required by
the spec and by the rest of the pipeline: a single observation dated
2020-01-15 resamples to the date 2020-01-31, whose day of month is not 1,
while the month-start normalization applied by merge_data_complete and
re-derived by the integrity checker maps the same month to 2020-01-01. -/
theorem c3_resample_is_month_end_anchored :
    aggregate_time_series_M [(some ⟨2020, 1, 15⟩, some 100)] = [(⟨2020, 1, 31⟩, some 100)] ∧
    (Date.mk 2020 1 31).day ≠ 1 ∧
    toMonthStart ⟨2020, 1, 31⟩ = ⟨2020, 1, 1⟩ := by
  refine ⟨?_, by decide, by decide⟩
  have hfm : List.filterMap (fun (r : Option Date × Option ℚ) => r.1.map (fun d => (d, r.2)))
      [(some ⟨2020, 1, 15⟩, some 100)] = [(⟨2020, 1, 15⟩, some 100)] := by simp
  simp only [aggregate_time_series_M, hfm]
  norm_num [denseRangeN, List.range_succ, monthEndDate, Date.monthIdx, daysInMonth, isLeapYear,
    meanOpt, List.filterMap_cons, List.filterMap_nil]

/-- C8 (amended): an observation whose date token failed every parsing rule
(NaT after coercion) is dropped by aggregate_time_series, and the run does not
abort, but the drop is silent: the output is identical to the output for the
input without the offending row, so no drop count reaches the caller. -/
theorem c8_silent_drop (pre post : List (Option Date × Option ℚ)) (v : Option ℚ) :
    aggregate_time_series_M (pre ++ (none, v) :: post) = aggregate_time_series_M (pre ++ post) := by
  have h : List.filterMap (fun (r : Option Date × Option ℚ) => r.1.map (fun d => (d, r.2)))
        (pre ++ (none, v) :: post)
      = List.filterMap (fun (r : Option Date × Option ℚ) => r.1.map (fun d => (d, r.2)))
        (pre ++ post) := by
    simp [List.filterMap_append]
  simp only [aggregate_time_series_M, h]

/-- Counterexample for C8: a concrete run with one unparseable-date row
returns exactly the same aggregate as the run without that row, so the
count of dropped observations is not reported to the caller in any form. -/
theorem c8_drop_count_unreported :
    aggregate_time_series_M [(some ⟨2020, 1, 15⟩, some 5), (none, some 7)]
      = aggregate_time_series_M [(some ⟨2020, 1, 15⟩, some 5)] ∧
    aggregate_time_series_M [(some ⟨2020, 1, 15⟩, some 5), (none, some 7)]
      = [(⟨2020, 1, 31⟩, some 5)] := by
  have hfm : ∀ tl : List (Option Date × Option ℚ),
      List.filterMap (fun (r : Option Date × Option ℚ) => r.1.map (fun d => (d, r.2)))
        ((some ⟨2020, 1, 15⟩, some 5) :: tl)
      = (⟨2020, 1, 15⟩, some 5) :: List.filterMap
          (fun (r : Option Date × Option ℚ) => r.1.map (fun d => (d, r.2))) tl := by
    intro tl; simp
  constructor
  · simp only [aggregate_time_series_M, hfm, List.filterMap_cons, List.filterMap_nil]
    rfl
  · simp only [aggregate_time_series_M, hfm, List.filterMap_cons, List.filterMap_nil]
    norm_num [denseRangeN, List.range_succ, monthEndDate, Date.monthIdx, daysInMonth, isLeapYear,
      meanOpt, List.filterMap_cons, List.filterMap_nil]

/-! ## Derived features (data_merger.add_derived_features, lines 346-374)

The percentage-change columns are pandas pct_change times 100. pct_change
divides the forward-filled series by its shift: entries facing a NaN after
filling are NaN, and a zero divisor follows IEEE division, producing a
signed infinity unless the numerator is also zero. -/

/-- Value of one pct-change entry: finite, NaN (null), or a signed infinity. -/
inductive PctVal where
  | null
  | fin (q : ℚ)
  | posInf
  | negInf
deriving DecidableEq, Repr

/-- The division step of pct_change at one row: current over base, minus one,
with IEEE semantics for a zero base and NaN propagation for missing values. -/
def pctVal (base cur : Option ℚ) : PctVal :=
  match base, cur with
  | none, _ => .null
  | _, none => .null
  | some p, some c =>
    if p = 0 then (if c = 0 then .null else if 0 < c then .posInf else .negInf)
    else .fin (c / p - 1)

/-- Forward fill of a value column, pandas fillna with method pad: the
default fill_method of pct_change. -/
def padCol (carry : Option ℚ) : List (Option ℚ) → List (Option ℚ)
  | [] => []
  | x :: xs =>
    match x with
    | some v => some v :: padCol (some v) xs
    | none => carry :: padCol carry xs

/-- Multiplication of a pct entry by a scalar; infinities and NaN absorb it. -/
def PctVal.scale (v : PctVal) (k : ℚ) : PctVal :=
  match v with
  | .fin q => .fin (q * k)
  | x => x

/-- One pct-change column of add_derived_features (data_merger.py line 371):
pandas pct_change with its default pad filling, multiplied by 100. Entry i
divides the padded value at i by the padded value at i - 1; entry 0 faces the
NaN introduced by the shift. -/
def pct_change_col (xs : List (Option ℚ)) : List PctVal :=
  let padded := padCol none xs
  (padded.zip (none :: padded)).map (fun cp => (pctVal cp.2 cp.1).scale 100)

/-! ## Claim C6 -/

/-- C6 (amended): the first row of a pct-change column is null; but a row
whose base (prior padded value) is zero yields a signed infinity whenever the
current value is nonzero, and null only in the 0/0 case; a null base is
forward-filled before dividing, so the entry is null only when no earlier
observation exists at all. -/
theorem c6_zero_base_gives_infinity (xs : List (Option ℚ)) (x : Option ℚ)
    (rest : List (Option ℚ)) (hxs : xs = x :: rest) (i : ℕ) (c : ℚ)
    (hbase : (padCol none xs)[i]? = some (some 0))
    (hcur : (padCol none xs)[i + 1]? = some (some c)) :
    (pct_change_col xs).head? = some .null ∧
    (pct_change_col xs)[i + 1]?
      = some (if c = 0 then PctVal.null else if 0 < c then PctVal.posInf else PctVal.negInf) := by
  constructor
  · subst hxs
    unfold pct_change_col
    cases hx : padCol none (x :: rest) with
    | nil => cases x <;> simp [padCol] at hx
    | cons p tl => simp [hx, pctVal, PctVal.scale]
  · unfold pct_change_col
    have hzip : ((padCol none xs).zip (none :: padCol none xs))[i + 1]? = some (some c, some 0) := by
      rw [List.getElem?_zip_eq_some]
      exact ⟨hcur, by simpa using hbase⟩
    rw [List.getElem?_map, hzip]
    by_cases hc : c = 0
    · simp [hc, pctVal, PctVal.scale]
    · by_cases hpos : 0 < c
      · simp [hc, hpos, pctVal, PctVal.scale]
      · simp [hc, hpos, pctVal, PctVal.scale]

/-- Witness for C6 at the concrete column with a zero base. -/
theorem c6_zero_base_gives_infinity_witness :
    (padCol none [some 0, some (5 : ℚ)])[0]? = some (some 0) ∧
    (padCol none [some 0, some (5 : ℚ)])[1]? = some (some 5) ∧
    ((pct_change_col [some 0, some 5]).head? = some .null ∧
     (pct_change_col [some 0, some 5])[0 + 1]?
       = some (if (5 : ℚ) = 0 then PctVal.null
           else if 0 < (5 : ℚ) then PctVal.posInf else PctVal.negInf)) :=
  ⟨by decide, by decide,
   c6_zero_base_gives_infinity [some 0, some 5] (some 0) [some 5] rfl 0 5
     (by decide) (by decide)⟩

/-- Counterexample for C6: a value column whose first observation is 0 and
whose second is 5 gets a pct-change entry of positive infinity at row 1,
where the claim demands null for a zero base. -/
theorem c6_counterexample_zero_base :
    pct_change_col [some 0, some 5] = [.null, .posInf] ∧ PctVal.posInf ≠ PctVal.null :=
  ⟨by decide, by decide⟩

/-! ## Dataset merging (data_merger.merge_datasets, lines 234-311)

A frame is modelled by its non-key column names and its rows keyed by the
merge key (the date). merge_datasets renames the value column of each input
to value_<name>, adds a boolean source_<name> column (booleans carried as
rationals, True as 1, the final fillna(False) as 0), outer-joins pairwise on
the key with the pandas suffix pair of the empty suffix for the left table
and _<name> for the right, sorts by date, and fills the source columns. -/

/-- A data frame: non-key column names plus rows of key and cell values. -/
structure Frame where
  cols : List String
  rows : List (Int × List (Option ℚ))
deriving DecidableEq, Repr

/-- Rename the value column to value_<name> (lines 280-281 and 291-292). -/
def renameValueCol (name : String) (f : Frame) : Frame :=
  { f with cols := f.cols.map (fun c => if c = "value" then "value_" ++ name else c) }

/-- Append the boolean column source_<name> set to True (lines 277, 288). -/
def addSourceCol (name : String) (f : Frame) : Frame :=
  { cols := f.cols ++ ["source_" ++ name],
    rows := f.rows.map (fun r => (r.1, r.2 ++ [some 1])) }

/-- The row of a table at a key, if present. -/
def lookupRow (rows : List (Int × List (Option ℚ))) (d : Int) :
    Option (List (Option ℚ)) :=
  (rows.find? (fun r => r.1 == d)).map (fun r => r.2)

/-- One pandas outer merge on the key with suffixes ('', _<name>) (line 299):
keys of the left table, then unmatched keys of the right table; a right
column name colliding with a left column name receives the suffix, the left
one keeps its name; a table lacking a key contributes NaN cells. -/
def outerMergeStep (acc : Frame) (name : String) (df : Frame) : Frame :=
  let r := renameValueCol name (addSourceCol name df)
  let rcols := r.cols.map (fun c => if acc.cols.contains c then c ++ "_" ++ name else c)
  let keys := acc.rows.map (fun p => p.1)
    ++ ((r.rows.map (fun p => p.1)).filter
        (fun d => !(acc.rows.map (fun p => p.1)).contains d))
  { cols := acc.cols ++ rcols,
    rows := keys.map (fun d =>
      (d, ((lookupRow acc.rows d).getD (List.replicate acc.cols.length none))
          ++ ((lookupRow r.rows d).getD (List.replicate rcols.length none)))) }

/-- Ordering of rows by the date key, for the final sort_values (line 303). -/
def rowLE (a b : Int × List (Option ℚ)) : Prop := a.1 ≤ b.1

instance : DecidableRel rowLE := fun a b => Int.decLe a.1 b.1

instance : IsTotal (Int × List (Option ℚ)) rowLE := ⟨fun a b => Int.le_total a.1 b.1⟩

instance : IsTrans (Int × List (Option ℚ)) rowLE := ⟨fun _ _ _ => le_trans⟩

/-- Stable sort of the merged rows by date (line 303). -/
def sortRowsByDate (f : Frame) : Frame :=
  { f with rows := List.insertionSort rowLE f.rows }

/-- fillna(False) on the source columns (lines 306-308), False carried as 0. -/
def fillSourceCols (names : List String) (f : Frame) : Frame :=
  { f with rows := f.rows.map (fun r =>
      (r.1, (f.cols.zip r.2).map (fun cv =>
        if names.any (fun n => cv.1 == "source_" ++ n) then some (cv.2.getD 0) else cv.2))) }

/-- merge_datasets: raise on an empty dataset dict (none), else fold the
pairwise outer merge over the datasets in order, sort by date, fill the
source columns. -/
def merge_datasets (dss : List (String × Frame)) : Option Frame :=
  match dss with
  | [] => none
  | (n0, f0) :: rest =>
    let acc0 := renameValueCol n0 (addSourceCol n0 f0)
    let m := rest.foldl (fun acc nf => outerMergeStep acc nf.1 nf.2) acc0
    some (fillSourceCols (((n0, f0) :: rest).map (fun p => p.1)) (sortRowsByDate m))

/-- The date keys of a frame, in row order. -/
def keysOf (f : Frame) : List Int := f.rows.map (fun p => p.1)

lemma keysOf_outerMergeStep (acc : Frame) (name : String) (df : Frame) :
    keysOf (outerMergeStep acc name df)
      = keysOf acc ++ (keysOf df).filter (fun d => !(keysOf acc).contains d) := by
  unfold outerMergeStep keysOf renameValueCol addSourceCol
  simp [List.map_map, Function.comp_def]

lemma mem_keysOf_outerMergeStep (acc : Frame) (name : String) (df : Frame) (d : Int) :
    d ∈ keysOf (outerMergeStep acc name df) ↔ d ∈ keysOf acc ∨ d ∈ keysOf df := by
  rw [keysOf_outerMergeStep]
  simp [List.mem_filter]
  tauto

lemma mem_keysOf_foldl (l : List (String × Frame)) (acc : Frame) (d : Int) :
    d ∈ keysOf (l.foldl (fun a nf => outerMergeStep a nf.1 nf.2) acc)
      ↔ d ∈ keysOf acc ∨ ∃ nf ∈ l, d ∈ keysOf nf.2 := by
  induction l generalizing acc with
  | nil => simp
  | cons hd tl ih =>
    rw [List.foldl_cons, ih, mem_keysOf_outerMergeStep]
    simp
    tauto

lemma keysOf_fillSourceCols (names : List String) (f : Frame) :
    keysOf (fillSourceCols names f) = keysOf f := by
  unfold fillSourceCols keysOf
  simp [List.map_map, Function.comp_def]

lemma mem_keysOf_sortRowsByDate (f : Frame) (d : Int) :
    d ∈ keysOf (sortRowsByDate f) ↔ d ∈ keysOf f :=
  ((List.perm_insertionSort rowLE f.rows).map (fun p => p.1)).mem_iff

lemma sorted_keysOf_sortRowsByDate (f : Frame) :
    List.Sorted (· ≤ ·) (keysOf (sortRowsByDate f)) := by
  unfold sortRowsByDate keysOf
  rw [List.Sorted, List.pairwise_map]
  exact List.sorted_insertionSort rowLE f.rows

/-! ## Claims C2 and C4 -/

/-- C2 (amended): the date column of an outer merge is the sorted UNION of
the input date sets — every date appearing in some input appears in the
output and nothing else does — so it is dense only when the union of input
dates already is; the dense gapless axis of the spec is not produced by
merge_datasets (merge_data_complete builds it separately with an explicit
date_range and a left join). -/
theorem c2_outer_merge_dates_are_sorted_union (dss : List (String × Frame)) (n0 : String)
    (f0 : Frame) (rest : List (String × Frame)) (heq : dss = (n0, f0) :: rest) :
    ∃ m, merge_datasets dss = some m ∧
      (∀ d, d ∈ keysOf m ↔ ∃ nf ∈ dss, d ∈ keysOf nf.2) ∧
      List.Sorted (· ≤ ·) (keysOf m) := by
  subst heq
  refine ⟨_, rfl, ?_, ?_⟩
  · intro d
    rw [keysOf_fillSourceCols, mem_keysOf_sortRowsByDate, mem_keysOf_foldl]
    have hacc0 : keysOf (renameValueCol n0 (addSourceCol n0 f0)) = keysOf f0 := by
      unfold renameValueCol addSourceCol keysOf
      simp [List.map_map, Function.comp_def]
    rw [hacc0]
    simp
  · rw [keysOf_fillSourceCols]
    exact sorted_keysOf_sortRowsByDate _

/-- Witness for C2 at a one-dataset merge. -/
theorem c2_outer_merge_dates_are_sorted_union_witness :
    ∃ m, merge_datasets [("A", Frame.mk ["value"] [(0, [some 1])])] = some m ∧
      (∀ d, d ∈ keysOf m ↔ ∃ nf ∈ [("A", Frame.mk ["value"] [(0, [some 1])])],
        d ∈ keysOf nf.2) ∧
      List.Sorted (· ≤ ·) (keysOf m) :=
  c2_outer_merge_dates_are_sorted_union [("A", ⟨["value"], [(0, [some 1])]⟩)]
    "A" ⟨["value"], [(0, [some 1])]⟩ [] rfl

/-- Counterexample for C2: outer-merging a series with dates 0 and 2 with a
series with date 0 yields the date axis [0, 2]; the period 1 lies between the
minimum 0 and the maximum 2 but holds no row, so the axis is not the complete
gapless sequence of every period between them. -/
theorem c2_counterexample_gap_in_outer_merge :
    (merge_datasets [("A", ⟨["value"], [(0, [some 1]), (2, [some 2])]⟩),
                     ("B", ⟨["value"], [(0, [some 3])]⟩)]).map keysOf = some [0, 2] ∧
    (0 : Int) ≤ 1 ∧ (1 : Int) ≤ 2 ∧ (1 : Int) ∉ ([0, 2] : List Int) :=
  ⟨by decide, by decide, by decide, by decide⟩

/-- C4 (amended): merge_datasets never raises a column-collision error (no
such error exists in the code); two inputs sharing a non-key column name c
both survive the merge, the earlier dataset keeping the name c and the later
one receiving the pandas suffix, c_<name>; neither column is overwritten. -/
theorem c4_collision_suffixed_not_raised (nA nB : String) (A B : Frame) (c : String)
    (hA : c ∈ A.cols) (hB : c ∈ B.cols) (hval : c ≠ "value") :
    ∃ m, merge_datasets [(nA, A), (nB, B)] = some m ∧
      c ∈ m.cols ∧ (c ++ "_" ++ nB) ∈ m.cols := by
  refine ⟨_, rfl, ?_, ?_⟩
  · show c ∈ (outerMergeStep (renameValueCol nA (addSourceCol nA A)) nB B).cols
    unfold outerMergeStep renameValueCol addSourceCol
    simp only [List.mem_append, List.mem_map]
    left
    exact ⟨c, by simp [hA], by rw [if_neg hval]⟩
  · show (c ++ "_" ++ nB) ∈ (outerMergeStep (renameValueCol nA (addSourceCol nA A)) nB B).cols
    have hmem : c ∈ (renameValueCol nA (addSourceCol nA A)).cols := by
      unfold renameValueCol addSourceCol
      simp only [List.mem_map]
      exact ⟨c, by simp [hA], by rw [if_neg hval]⟩
    unfold outerMergeStep renameValueCol addSourceCol
    simp only [List.mem_append, List.mem_map]
    right
    refine ⟨c, ⟨c, by simp [hB], by rw [if_neg hval]⟩, ?_⟩
    rw [if_pos ?_]
    · exact List.elem_eq_true_of_mem hmem

/-- Witness for C4: two datasets both carrying a rate column. -/
theorem c4_collision_suffixed_not_raised_witness :
    ∃ m, merge_datasets [("A", Frame.mk ["rate"] [(0, [some 1])]),
                         ("B", Frame.mk ["rate"] [(0, [some 2])])] = some m ∧
      "rate" ∈ m.cols ∧ ("rate" ++ "_" ++ "B") ∈ m.cols :=
  c4_collision_suffixed_not_raised "A" "B" ⟨["rate"], [(0, [some 1])]⟩
    ⟨["rate"], [(0, [some 2])]⟩ "rate" (by decide) (by decide) (by decide)

/-- Counterexample for C4: merging two series both named rate from sources A
and B raises nothing — merge_datasets returns a table with columns rate and
rate_B carrying both values, instead of the MergeColumnCollision failure the
claim requires. -/
theorem c4_counterexample_no_collision_error :
    merge_datasets [("A", ⟨["rate"], [(0, [some 1])]⟩), ("B", ⟨["rate"], [(0, [some 2])]⟩)]
      = some ⟨["rate", "source_A", "rate_B", "source_B"],
              [(0, [some 1, some 1, some 2, some 1])]⟩ := by
  decide

/-! ## Forward-fill resampling (merge_data_complete.main, lines 159-167, 222-226)

Coarse series (quarterly or annual) are resampled with resample(MS).first(),
forward filled, and later left-joined onto the explicitly built monthly axis
(line 264). All dates here are month starts, identified by month index. -/

/-- resample(MS).first() of a date-sorted series: one row per month from the
first to the last observed month, holding the first observed value of the
month, NaN when the month has no observation. -/
def resample_MS_first (obs : List (Date × ℚ)) : List (Nat × Option ℚ) :=
  match obs with
  | [] => []
  | o :: rest =>
    let idxs := (o :: rest).map (fun p => p.1.monthIdx)
    let lo := idxs.foldl min o.1.monthIdx
    let hi := idxs.foldl max o.1.monthIdx
    (denseRangeN lo hi).map (fun mi =>
      (mi, ((o :: rest).find? (fun p => p.1.monthIdx == mi)).map (fun p => p.2)))

/-- fillna(method=ffill) on a keyed monthly column. -/
def ffillCol (carry : Option ℚ) : List (Nat × Option ℚ) → List (Nat × Option ℚ)
  | [] => []
  | (d, v) :: rest =>
    match v with
    | some w => (d, some w) :: ffillCol (some w) rest
    | none => (d, carry) :: ffillCol carry rest

/-- The coarse-to-monthly pipeline of merge_data_complete: resample to month
starts taking the first value of each month, then forward fill; the final
to_period(M).to_timestamp() is the identity on month starts. -/
def coarse_to_monthly (obs : List (Date × ℚ)) : List (Nat × Option ℚ) :=
  ffillCol none (resample_MS_first obs)

/-- pd.merge how=left of one monthly series onto the full monthly axis
(merge_data_complete line 264): a month of the axis missing from the series
holds NaN. -/
def leftJoinAxis (axis : List Nat) (ser : List (Nat × Option ℚ)) :
    List (Nat × Option ℚ) :=
  axis.map (fun d => (d, (ser.find? (fun p => p.1 == d)).bind (fun p => p.2)))

lemma mem_denseRangeN_lb (lo hi m : Nat) (h : m ∈ denseRangeN lo hi) : lo ≤ m := by
  unfold denseRangeN at h
  simp only [List.mem_map, List.mem_range] at h
  obtain ⟨i, _, hi'⟩ := h
  omega

lemma foldl_min_of_le (a : Nat) (l : List Nat) (h : ∀ x ∈ l, a ≤ x) :
    l.foldl min a = a := by
  induction l generalizing a with
  | nil => rfl
  | cons x xs ih =>
    rw [List.foldl_cons, min_eq_left (h x (by simp))]
    exact ih a (fun y hy => h y (by simp [hy]))

lemma keys_ffillCol (carry : Option ℚ) (l : List (Nat × Option ℚ)) :
    (ffillCol carry l).map (fun p => p.1) = l.map (fun p => p.1) := by
  induction l generalizing carry with
  | nil => rfl
  | cons r rs ih =>
    rcases r with ⟨d, v⟩
    cases v <;> simp [ffillCol, ih]

lemma keys_coarse_to_monthly_lb (obs : List (Date × ℚ)) (o : Date × ℚ)
    (rest : List (Date × ℚ)) (hobs : obs = o :: rest)
    (hmin : ∀ p ∈ obs, o.1.monthIdx ≤ p.1.monthIdx)
    (p : Nat × Option ℚ) (hp : p ∈ coarse_to_monthly obs) : o.1.monthIdx ≤ p.1 := by
  subst hobs
  have hk : p.1 ∈ (coarse_to_monthly (o :: rest)).map (fun q => q.1) :=
    List.mem_map_of_mem _ hp
  rw [coarse_to_monthly, keys_ffillCol] at hk
  unfold resample_MS_first at hk
  simp only [List.map_map, Function.comp_def, List.map_id'] at hk
  have hlo : ((o :: rest).map (fun p => p.1.monthIdx)).foldl min o.1.monthIdx
      = o.1.monthIdx := by
    refine foldl_min_of_le _ _ ?_
    intro x hx
    simp only [List.mem_map] at hx
    obtain ⟨q, hq, rfl⟩ := hx
    exact hmin q hq
  rw [hlo] at hk
  exact mem_denseRangeN_lb _ _ _ hk

/-! ## Claim C9 -/

/-- C9: forward-fill resampling of a coarse series never back-fills: the
resampled series has no row at any month strictly before the month of the
first native observation, and after the left join onto the full monthly axis
every such month holds null. -/
theorem c9_no_backfill_before_first_observation (obs : List (Date × ℚ)) (o : Date × ℚ)
    (rest : List (Date × ℚ)) (hobs : obs = o :: rest)
    (hmin : ∀ p ∈ obs, o.1.monthIdx ≤ p.1.monthIdx)
    (m : Nat) (hm : m < o.1.monthIdx) :
    (coarse_to_monthly obs).find? (fun p => p.1 == m) = none ∧
    ∀ axis v, (m, v) ∈ leftJoinAxis axis (coarse_to_monthly obs) → v = none := by
  have hfind : (coarse_to_monthly obs).find? (fun p => p.1 == m) = none := by
    rw [List.find?_eq_none]
    intro p hp
    have := keys_coarse_to_monthly_lb obs o rest hobs hmin p hp
    simp only [beq_iff_eq]
    omega
  refine ⟨hfind, ?_⟩
  intro axis v hv
  unfold leftJoinAxis at hv
  simp only [List.mem_map] at hv
  obtain ⟨d, _, hdv⟩ := hv
  have hd : d = m := congrArg Prod.fst hdv
  have hveq : ((coarse_to_monthly obs).find? (fun p => p.1 == d)).bind (fun p => p.2) = v :=
    congrArg Prod.snd hdv
  rw [hd, hfind] at hveq
  exact hveq.symm

/-- Witness for C9: a single quarterly observation in April 2020; March 2020
(month index 24242) has no resampled row and joins to null. -/
theorem c9_no_backfill_before_first_observation_witness :
    (24242 : Nat) < (Date.mk 2020 4 15).monthIdx ∧
    (coarse_to_monthly [(⟨2020, 4, 15⟩, 50)]).find? (fun p => p.1 == 24242) = none ∧
    ∀ v, (24242, v) ∈ leftJoinAxis [24242, 24243] (coarse_to_monthly [(⟨2020, 4, 15⟩, 50)])
      → v = none :=
  ⟨by decide,
   (c9_no_backfill_before_first_observation [(⟨2020, 4, 15⟩, 50)] (⟨2020, 4, 15⟩, 50) []
      rfl (by decide) 24242 (by decide)).1,
   fun v => (c9_no_backfill_before_first_observation [(⟨2020, 4, 15⟩, 50)] (⟨2020, 4, 15⟩, 50)
      [] rfl (by decide) 24242 (by decide)).2 [24242, 24243] v⟩

/-! ## Integrity checker (kor_macro/data_integrity_checker.py)

Every date the checker compares is a month start (it converts both maps with
dt.to_period(M).dt.to_timestamp()), so a timestamp is represented by its
month index and the day delta recorded in a date-shift payload by the
difference of indices. The load and re-normalization phase of
check_date_alignment (read_csv plus per-provider parsing, lines 30-77) is
file input; a source file is represented by its load outcome: absent on
disk, unreadable (read raised), or the re-derived expected monthly series. -/

/-- Payload of one detected date shift (lines 114-119). -/
structure ShiftRec where
  original_date : Int
  shifted_to : Int
  days_shifted : Int
  value : ℚ
deriving DecidableEq, Repr

/-- Payload of one detected value mismatch (lines 124-129). -/
structure MismatchRec where
  date : Int
  original_value : ℚ
  merged_value : ℚ
  difference : ℚ
deriving DecidableEq, Repr

/-- One entry of the issue, warning and validation lists of the checker,
mirroring the content of the appended strings. -/
inductive CheckEntry where
  | dateShifts (source : String) (count : Nat)
  | validationError (source : String)
  | orderingIssue
  | duplicateDates (count : Nat)
  | missingMonths (count : Nat)
  | valueMismatches (source : String) (count : Nat)
  | irregularFrequency (source : String)
  | aligned (source : String)
deriving DecidableEq, Repr

/-- The accumulated state of a DataIntegrityChecker: the critical issues
list, the warnings list, the validations list (lines 18-21). -/
structure CheckerState where
  issues : List CheckEntry
  warnings : List CheckEntry
  validations : List CheckEntry
deriving DecidableEq, Repr

/-- The merged table as the checker reads it back: the date column (month
indices) and the named value columns aligned with it. -/
structure MergedDF where
  dates : List Int
  cols : List (String × List (Option ℚ))
deriving Repr

/-- merged_subset for one value column (lines 86-87): the (date, value)
pairs of the merged table whose value is not NaN. -/
def mergedSubset (df : MergedDF) (colVals : List (Option ℚ)) : List (Int × ℚ) :=
  (df.dates.zip colVals).filterMap (fun r => r.2.map (fun v => (r.1, v)))

/-- One iteration of the comparison loop of check_date_alignment (lines
93-129): a row with a NaN value is skipped; when the merged table has no row
at the original date, the first merged value within 0.01 of the original
marks a date shift recording both dates and their delta; when it has one, a
difference above 0.01 marks a value mismatch. -/
def compareStep (sub : List (Int × ℚ)) (acc : List ShiftRec × List MismatchRec)
    (row : Int × Option ℚ) : List ShiftRec × List MismatchRec :=
  match row.2 with
  | none => acc
  | some ov =>
    match sub.filter (fun r => r.1 == row.1) with
    | [] =>
      match sub.filter (fun r => |r.2 - ov| < 1 / 100) with
      | [] => acc
      | w :: _ => (acc.1 ++ [⟨row.1, w.1, w.1 - row.1, ov⟩], acc.2)
    | m0 :: _ =>
      if 1 / 100 < |m0.2 - ov| then (acc.1, acc.2 ++ [⟨row.1, ov, m0.2, m0.2 - ov⟩])
      else acc

/-- The full comparison loop over the re-derived original monthly series. -/
def compareDates (orig : List (Int × Option ℚ)) (sub : List (Int × ℚ)) :
    List ShiftRec × List MismatchRec :=
  orig.foldl (compareStep sub) ([], [])

/-- Successive differences of a date column. -/
def dateDiffs : List Int → List Int
  | [] => []
  | [_] => []
  | a :: b :: rest => (b - a) :: dateDiffs (b :: rest)

/-- _check_frequency_consistency (lines 163-176): warn when a gap between
consecutive dates of the re-derived series exceeds 1.5 expected monthly
periods, which in month indices means a gap of at least two periods. -/
def freqCheck (st : CheckerState) (orig : List (Int × Option ℚ)) (name : String) :
    CheckerState :=
  if 1 < orig.length ∧ (dateDiffs (orig.map (fun p => p.1))).any (fun g => 1 < g) then
    { st with warnings := st.warnings ++ [.irregularFrequency name] }
  else st

/-- Outcome of loading one original source file. -/
inductive FileResult where
  | absent
  | unreadable
  | ok (monthly : List (Int × Option ℚ))

/-- check_date_alignment (lines 23-161): an unreadable file lands in the
except branch, which appends to the CRITICAL issues list (lines 159-161); a
readable file with no valid rows, or no matching merged column, returns with
no state change (lines 70-72, 80-83); otherwise the comparison loop runs,
date shifts append one critical issue, value mismatches one warning, and a
clean source one validation entry, then the frequency check runs. -/
def check_date_alignment (st : CheckerState) (file : FileResult) (merged : MergedDF)
    (name : String) : CheckerState :=
  match file with
  | .absent => st
  | .unreadable => { st with issues := st.issues ++ [.validationError name] }
  | .ok orig =>
    if (orig.filterMap (fun r => r.2)).isEmpty then st
    else
      match merged.cols.find? (fun c => c.1 == name ++ "_value") with
      | none => st
      | some col =>
        let res := compareDates orig (mergedSubset merged col.2)
        let st1 := if res.1.isEmpty then st
          else { st with issues := st.issues ++ [.dateShifts name res.1.length] }
        let st2 := if res.2.isEmpty then st1
          else { st1 with warnings := st1.warnings ++ [.valueMismatches name res.2.length] }
        let st3 := if res.1.isEmpty ∧ res.2.isEmpty then
            { st2 with validations := st2.validations ++ [.aligned name] }
          else st2
        freqCheck st3 orig name

/-- pandas is_monotonic_increasing: non-strict monotonicity. -/
def monotoneDates : List Int → Bool
  | [] => true
  | [_] => true
  | a :: b :: rest => a ≤ b && monotoneDates (b :: rest)

/-- duplicated().sum(): rows minus distinct keys. -/
def dupCount (l : List Int) : Nat := l.length - l.dedup.length

/-- All integers from lo to hi inclusive, as date_range(min, max, freq=MS)
produces in month indices. -/
def denseRangeZ (lo hi : Int) : List Int :=
  (List.range (hi + 1 - lo).toNat).map (fun i => lo + i)

/-- The months of the dense range absent from the date column. -/
def missingCount (l : List Int) : Nat :=
  match l.min?, l.max? with
  | some lo, some hi => ((denseRangeZ lo hi).filter (fun d => !l.contains d)).length
  | _, _ => 0

/-- The three global checks of _generate_summary_report (lines 264-292):
date ordering, duplicate dates, missing months, each appending one critical
issue on failure. -/
def globalChecks (st : CheckerState) (merged : MergedDF) : CheckerState :=
  let st1 := if monotoneDates merged.dates then st
    else { st with issues := st.issues ++ [.orderingIssue] }
  let st2 := if dupCount merged.dates = 0 then st1
    else { st1 with issues := st1.issues ++ [.duplicateDates (dupCount merged.dates)] }
  if missingCount merged.dates = 0 then st2
  else { st2 with issues := st2.issues ++ [.missingMonths (missingCount merged.dates)] }

/-- check_merge_integrity (lines 178-236): for each configured source, the
per-source alignment check runs only when the file exists on disk — a missing
file is skipped with no finding at all — and the global invariant checks run
once at the end regardless. -/
def check_merge_integrity (store : String → FileResult)
    (sources : List (String × String)) (merged : MergedDF) : CheckerState :=
  let st := sources.foldl (fun st src =>
    match store src.2 with
    | .absent => st
    | f => check_date_alignment st f merged src.1) ⟨[], [], []⟩
  globalChecks st merged

lemma zip_some_filterMap (S : List (Int × ℚ)) :
    ((S.map (fun p => p.1 + 1)).zip (S.map (fun p => some p.2))).filterMap
        (fun r => r.2.map (fun v => (r.1, v)))
      = S.map (fun p => (p.1 + 1, p.2)) := by
  induction S with
  | nil => rfl
  | cons p ps ih => simp [ih]

lemma compareStep_prefix (sub : List (Int × ℚ)) (acc : List ShiftRec × List MismatchRec)
    (row : Int × Option ℚ) :
    acc.1 <+: (compareStep sub acc row).1 ∧ acc.2 <+: (compareStep sub acc row).2 := by
  unfold compareStep
  split
  · exact ⟨List.prefix_rfl, List.prefix_rfl⟩
  · split
    · split
      · exact ⟨List.prefix_rfl, List.prefix_rfl⟩
      · exact ⟨List.prefix_append _ _, List.prefix_rfl⟩
    · split
      · exact ⟨List.prefix_rfl, List.prefix_append _ _⟩
      · exact ⟨List.prefix_rfl, List.prefix_rfl⟩

lemma compareFoldl_prefix (sub : List (Int × ℚ)) (rows : List (Int × Option ℚ))
    (acc : List ShiftRec × List MismatchRec) :
    acc.1 <+: (rows.foldl (compareStep sub) acc).1 ∧
    acc.2 <+: (rows.foldl (compareStep sub) acc).2 := by
  induction rows generalizing acc with
  | nil => exact ⟨List.prefix_rfl, List.prefix_rfl⟩
  | cons r rs ih =>
    rw [List.foldl_cons]
    obtain ⟨h1, h2⟩ := compareStep_prefix sub acc r
    obtain ⟨h3, h4⟩ := ih (compareStep sub acc r)
    exact ⟨h1.trans h3, h2.trans h4⟩

lemma compareStep_first (d1 : Int) (v1 : ℚ) (rest : List (Int × ℚ))
    (hmin : ∀ p ∈ (d1, v1) :: rest, d1 ≤ p.1) :
    compareStep (((d1, v1) :: rest).map (fun p => (p.1 + 1, p.2))) ([], []) (d1, some v1)
      = ([⟨d1, d1 + 1, 1, v1⟩], []) := by
  unfold compareStep
  dsimp only
  have hfil : (((d1, v1) :: rest).map (fun p => (p.1 + 1, p.2))).filter
      (fun r => r.1 == d1) = [] := by
    rw [List.filter_eq_nil_iff]
    intro a ha
    simp only [List.mem_map] at ha
    obtain ⟨q, hq, rfl⟩ := ha
    have hle := hmin q hq
    simp only [beq_iff_eq]
    omega
  rw [hfil]
  have habs : |v1 - v1| < (1 : ℚ) / 100 := by
    rw [sub_self, abs_zero]
    norm_num
  simp only [List.map_cons, List.filter_cons]
  rw [if_pos (by simp [habs])]
  simp

lemma freqCheck_state (st : CheckerState) (orig : List (Int × Option ℚ)) (name : String) :
    (freqCheck st orig name).issues = st.issues ∧
    (freqCheck st orig name).validations = st.validations := by
  unfold freqCheck
  split <;> exact ⟨rfl, rfl⟩

lemma check_date_alignment_shift (st : CheckerState) (orig : List (Int × Option ℚ))
    (merged : MergedDF) (name : String) (col : String × List (Option ℚ))
    (hne : (orig.filterMap (fun r => r.2)).isEmpty = false)
    (hfind : merged.cols.find? (fun c => c.1 == name ++ "_value") = some col)
    (payload : ShiftRec) (t : List ShiftRec) (u : List MismatchRec)
    (hres : compareDates orig (mergedSubset merged col.2) = (payload :: t, u)) :
    (check_date_alignment st (.ok orig) merged name).issues
      = st.issues ++ [.dateShifts name (t.length + 1)] ∧
    (check_date_alignment st (.ok orig) merged name).validations = st.validations := by
  unfold check_date_alignment
  simp only [hne, hfind, hres, List.isEmpty_cons, Bool.false_eq_true, if_false,
    List.length_cons, false_and]
  by_cases hu : u.isEmpty
  · simp only [hu, if_true]
    exact ⟨(freqCheck_state _ orig name).1, (freqCheck_state _ orig name).2⟩
  · simp only [hu, if_false]
    exact ⟨(freqCheck_state _ orig name).1, (freqCheck_state _ orig name).2⟩

/-! ## Claims C1 and C7 -/

/-- C1: a monthly series S compared against a merged table equal to S with
every date advanced by one period is caught: the comparison loop records a
first date-shift payload holding the original date, the shifted date (one
period later) and the delta between them, check_date_alignment appends one
date-shift entry to the critical issues list, and the validations list (the
clean passes) is left untouched. -/
theorem c1_shift_always_detected (S : List (Int × ℚ)) (d1 : Int) (v1 : ℚ)
    (Srest : List (Int × ℚ)) (hS : S = (d1, v1) :: Srest)
    (hmin : ∀ p ∈ S, d1 ≤ p.1) (st : CheckerState) (name : String) :
    (compareDates (S.map (fun p => (p.1, some p.2)))
        (S.map (fun p => (p.1 + 1, p.2)))).1.head?
      = some ⟨d1, d1 + 1, 1, v1⟩ ∧
    (∃ n, 0 < n ∧
      (check_date_alignment st (.ok (S.map (fun p => (p.1, some p.2))))
          ⟨S.map (fun p => p.1 + 1), [(name ++ "_value", S.map (fun p => some p.2))]⟩
          name).issues
        = st.issues ++ [.dateShifts name n]) ∧
    (check_date_alignment st (.ok (S.map (fun p => (p.1, some p.2))))
        ⟨S.map (fun p => p.1 + 1), [(name ++ "_value", S.map (fun p => some p.2))]⟩
        name).validations
      = st.validations := by
  subst hS
  have hstep := compareStep_first d1 v1 Srest hmin
  have horig : ((d1, v1) :: Srest).map (fun p => (p.1, some p.2))
      = (d1, some v1) :: Srest.map (fun p => (p.1, some p.2)) := List.map_cons _ _ _
  have hfold : compareDates (((d1, v1) :: Srest).map (fun p => (p.1, some p.2)))
        (((d1, v1) :: Srest).map (fun p => (p.1 + 1, p.2)))
      = (Srest.map (fun p => (p.1, some p.2))).foldl
          (compareStep (((d1, v1) :: Srest).map (fun p => (p.1 + 1, p.2))))
          ([⟨d1, d1 + 1, 1, v1⟩], []) := by
    unfold compareDates
    rw [horig, List.foldl_cons, hstep]
  obtain ⟨hp1, _⟩ := compareFoldl_prefix (((d1, v1) :: Srest).map (fun p => (p.1 + 1, p.2)))
      (Srest.map (fun p => (p.1, some p.2))) ([⟨d1, d1 + 1, 1, v1⟩], [])
  obtain ⟨t, ht⟩ := hp1
  rw [← hfold] at ht
  have hres1 : (compareDates (((d1, v1) :: Srest).map (fun p => (p.1, some p.2)))
      (((d1, v1) :: Srest).map (fun p => (p.1 + 1, p.2)))).1
      = ⟨d1, d1 + 1, 1, v1⟩ :: t := ht.symm
  have hms : mergedSubset
        ⟨((d1, v1) :: Srest).map (fun p => p.1 + 1),
         [(name ++ "_value", ((d1, v1) :: Srest).map (fun p => some p.2))]⟩
        (((d1, v1) :: Srest).map (fun p => some p.2))
      = ((d1, v1) :: Srest).map (fun p => (p.1 + 1, p.2)) := zip_some_filterMap _
  refine ⟨?_, ?_⟩
  · rw [hres1]
    rfl
  · have hne : ((((d1, v1) :: Srest).map (fun p => (p.1, some p.2))).filterMap
        (fun r => r.2)).isEmpty = false := by simp
    have hfind : (MergedDF.mk (((d1, v1) :: Srest).map (fun p => p.1 + 1))
          [(name ++ "_value", ((d1, v1) :: Srest).map (fun p => some p.2))]).cols.find?
          (fun c => c.1 == name ++ "_value")
        = some (name ++ "_value", ((d1, v1) :: Srest).map (fun p => some p.2)) := by
      simp [List.find?_cons_of_pos]
    have hres : compareDates (((d1, v1) :: Srest).map (fun p => (p.1, some p.2)))
        (mergedSubset
          ⟨((d1, v1) :: Srest).map (fun p => p.1 + 1),
           [(name ++ "_value", ((d1, v1) :: Srest).map (fun p => some p.2))]⟩
          (((d1, v1) :: Srest).map (fun p => some p.2)))
        = (⟨d1, d1 + 1, 1, v1⟩ :: t,
           (compareDates (((d1, v1) :: Srest).map (fun p => (p.1, some p.2)))
             (((d1, v1) :: Srest).map (fun p => (p.1 + 1, p.2)))).2) := by
      rw [hms]
      exact Prod.ext hres1 rfl
    obtain ⟨hiss, hval⟩ := check_date_alignment_shift st
      (((d1, v1) :: Srest).map (fun p => (p.1, some p.2)))
      ⟨((d1, v1) :: Srest).map (fun p => p.1 + 1),
       [(name ++ "_value", ((d1, v1) :: Srest).map (fun p => some p.2))]⟩
      name (name ++ "_value", ((d1, v1) :: Srest).map (fun p => some p.2))
      hne hfind ⟨d1, d1 + 1, 1, v1⟩ t _ hres
    exact ⟨⟨t.length + 1, by omega, hiss⟩, hval⟩

/-- Witness for C1: the one-observation series at month 0 with value 100,
shifted to month 1, is detected with the payload (0, 1, delta 1, 100) and
one critical date-shift entry. -/
theorem c1_shift_always_detected_witness :
    (compareDates ([((0 : Int), (100 : ℚ))].map (fun p => (p.1, some p.2)))
        ([((0 : Int), (100 : ℚ))].map (fun p => (p.1 + 1, p.2)))).1.head?
      = some ⟨0, 0 + 1, 1, 100⟩ ∧
    (∃ n, 0 < n ∧
      (check_date_alignment ⟨[], [], []⟩
          (.ok ([((0 : Int), (100 : ℚ))].map (fun p => (p.1, some p.2))))
          ⟨[((0 : Int), (100 : ℚ))].map (fun p => p.1 + 1),
           [("base_rate" ++ "_value", [((0 : Int), (100 : ℚ))].map (fun p => some p.2))]⟩
          "base_rate").issues
        = [CheckEntry.dateShifts "base_rate" n]) ∧
    (check_date_alignment ⟨[], [], []⟩
        (.ok ([((0 : Int), (100 : ℚ))].map (fun p => (p.1, some p.2))))
        ⟨[((0 : Int), (100 : ℚ))].map (fun p => p.1 + 1),
         [("base_rate" ++ "_value", [((0 : Int), (100 : ℚ))].map (fun p => some p.2))]⟩
        "base_rate").validations
      = [] :=
  c1_shift_always_detected [(0, 100)] 0 100 [] rfl (by decide) ⟨[], [], []⟩ "base_rate"

/-- C7 (amended): a source whose original file does not exist on disk is
skipped silently — the integrity pass over the remaining sources and the
global checks is exactly the pass without that source, and no finding of any
kind records the unavailability; a source whose file exists but cannot be
read lands in the except branch, which appends to the CRITICAL issues list,
not to the warnings. Other sources and the global checks still run. -/
theorem c7_missing_source_is_silent (store : String → FileResult) (name path : String)
    (rest : List (String × String)) (merged : MergedDF)
    (habs : store path = .absent) :
    check_merge_integrity store ((name, path) :: rest) merged
      = check_merge_integrity store rest merged ∧
    ∀ (st : CheckerState) (name2 : String),
      (check_date_alignment st .unreadable merged name2).issues
          = st.issues ++ [.validationError name2] ∧
      (check_date_alignment st .unreadable merged name2).warnings = st.warnings := by
  constructor
  · unfold check_merge_integrity
    rw [List.foldl_cons]
    simp [habs]
  · intro st name2
    exact ⟨rfl, rfl⟩

/-- Witness for C7 with a store holding no files. -/
theorem c7_missing_source_is_silent_witness :
    check_merge_integrity (fun _ => .absent) [("a", "f")] ⟨[], []⟩
      = check_merge_integrity (fun _ => .absent) [] ⟨[], []⟩ ∧
    ∀ (st : CheckerState) (name2 : String),
      (check_date_alignment st .unreadable ⟨[], []⟩ name2).issues
          = st.issues ++ [.validationError name2] ∧
      (check_date_alignment st .unreadable ⟨[], []⟩ name2).warnings = st.warnings :=
  c7_missing_source_is_silent (fun _ => .absent) "a" "f" [] ⟨[], []⟩ rfl

/-- Counterexample for C7: an integrity pass over one configured source whose
file is missing ends with empty warnings and empty issues — no
SourceUnavailable warning is recorded anywhere, where the claim requires a
Warning finding. -/
theorem c7_counterexample_no_warning_recorded :
    (check_merge_integrity (fun _ => .absent) [("a", "f")] ⟨[], []⟩).warnings = [] ∧
    (check_merge_integrity (fun _ => .absent) [("a", "f")] ⟨[], []⟩).issues = [] :=
  ⟨rfl, rfl⟩

end KorMacro
